import Mathlib

/-!
Verification development for a small slot-booking chat bot.

The repository holds two revisions of the bot:
* `bot.py` — the feature-complete revision: a 24-hour catalog of 96
  fifteen-minute slots, capacity-checked booking with a per-user duplicate
  check, soft cancellation (`status = 'cancelled'`), and a 50-user
  registration cap.
* `bot_server.py` — an earlier revision: a 08:00–20:00 catalog of 48 slots,
  capacity-checked booking without a duplicate check, hard cancellation
  (`DELETE`) guarded by an ownership check, and a statistics view.

Times of day are modelled as minutes since midnight (`Nat`).  The source
stores times as zero-padded `"HH:MM"` strings and compares them
lexicographically; on zero-padded strings that order coincides with the
numeric order on minutes, so string comparisons in SQL `WHERE`/`ORDER BY`
clauses are rendered as `≤`/`<` on minutes.  Rows of SQL tables are
modelled positionally as lists, which preserves both insertion order
(`AUTOINCREMENT` ids grow with position) and `GROUP BY`/`ORDER BY`
results used by the queries.  Russian user-facing message strings are
rendered as tagged result values (`SlotFull`, `AlreadyBooked`, ...);
each definition's comment records the mapping.
-/

namespace Bot

/-- One row of the `bookings` table of `bot.py`: `user_id`, `slot_id`, and
the `status` column, `true` for `'active'`, `false` for `'cancelled'`. -/
structure Booking where
  user : Nat
  slot : Nat
  active : Bool
deriving DecidableEq, Repr

/-- `SELECT COUNT(*) FROM bookings WHERE slot_id = ? AND status = "active"`. -/
def activeCount (bs : List Booking) (slot : Nat) : Nat :=
  bs.countP (fun b => b.slot == slot && b.active)

/-- `SELECT * FROM bookings WHERE user_id = ? AND slot_id = ? AND status = "active"`
followed by a truthiness test on `fetchone()`. -/
def hasActive (bs : List Booking) (user slot : Nat) : Bool :=
  bs.any (fun b => b.user == user && b.slot == slot && b.active)

/-- Tagged outcome of `book_slot` in `bot.py`.  `slotFull` stands for the
message `"Слот полностью занят"`, `alreadyBooked` for
`"Вы уже записаны на этот слот"`, `booked` for the success tuple. -/
inductive BookResult where
  | booked
  | slotFull
  | alreadyBooked
deriving DecidableEq, Repr

/-- `book_slot(user_id, slot_id)` of `bot.py` (lines 238–277).  The slot
catalog `caps` lists `(id, max_people)` rows of `time_slots`.  The steps in
source order: count active bookings of the slot; fetch `max_people`
(`fetchone()[0]` raises when the slot row is missing — modelled as `none`,
no state change since nothing was committed); reject with `slotFull` when
`booked_count >= max_people`; reject with `alreadyBooked` when the user
already holds an active booking; otherwise insert the new booking row. -/
def book_slot (caps : List (Nat × Nat)) (bs : List Booking) (user slot : Nat) :
    Option (List Booking × BookResult) :=
  match caps.find? (fun c => c.1 == slot) with
  | none => none
  | some c =>
    if activeCount bs slot ≥ c.2 then some (bs, .slotFull)
    else if hasActive bs user slot then some (bs, .alreadyBooked)
    else some (bs ++ [⟨user, slot, true⟩], .booked)

/-- The row transformation of
`UPDATE bookings SET status = "cancelled" WHERE user_id = ? AND slot_id = ? AND status = "active"`. -/
def cancelRow (user slot : Nat) (b : Booking) : Booking :=
  if b.user == user && b.slot == slot && b.active then ⟨b.user, b.slot, false⟩ else b

/-- `cancel_booking(user_id, slot_id)` of `bot.py` (lines 279–297): run the
`UPDATE`, report success iff `rowcount > 0`; on success fetch the slot's
`slot_time` (`fetchone()[0]` raises when the slot row is missing, before the
`UPDATE` is committed — modelled as `none`, no state change) and commit. -/
def cancel_booking (caps : List (Nat × Nat)) (bs : List Booking) (user slot : Nat) :
    Option (List Booking × Bool) :=
  if hasActive bs user slot then
    match caps.find? (fun c => c.1 == slot) with
    | none => none
    | some _ => some (bs.map (cancelRow user slot), true)
  else some (bs, false)

/-- Ledger states of `bot.py` reachable from an empty `bookings` table by
any sequence of `book_slot` and `cancel_booking` calls against a fixed slot
catalog `caps`.  A call that raises (`none`) performs no transition. -/
inductive Reachable (caps : List (Nat × Nat)) : List Booking → Prop where
  | init : Reachable caps []
  | book {bs bs' : List Booking} {u s : Nat} {r : BookResult} :
      Reachable caps bs → book_slot caps bs u s = some (bs', r) → Reachable caps bs'
  | cancel {bs bs' : List Booking} {u s : Nat} {ok : Bool} :
      Reachable caps bs → cancel_booking caps bs u s = some (bs', ok) → Reachable caps bs'

/-- The three status emoji used by the keyboards and rosters. -/
inductive Light where
  | green
  | yellow
  | red
deriving DecidableEq, Repr

/-- The icon choice of `get_slots_keyboard` in `bot.py` (lines 344–359):
`free_slots = max_people - booked_count`; `🔴` when
`booked_count >= max_people`, `🟡` when `free_slots == 1`, `🟢` otherwise.
(The subtraction is only inspected in the branch where
`booked_count < max_people`, so `Nat` subtraction is faithful there.) -/
def get_slots_keyboard_icon (max_people booked_count : Nat) : Light :=
  let free_slots := max_people - booked_count
  if booked_count ≥ max_people then .red
  else if free_slots == 1 then .yellow
  else .green

/-- `f"{n:02d}"`. -/
def pad2 (n : Nat) : String :=
  if n < 10 then "0" ++ toString n else toString n

/-- `end_hour = hour if minute < 45 else (hour + 1) % 24` from
`generate_slots_for_date` in `bot.py` (line 95). -/
def end_hour (hour minute : Nat) : Nat :=
  if minute < 45 then hour else (hour + 1) % 24

/-- `end_minute = (minute + 15) % 60` (line 96). -/
def end_minute (minute : Nat) : Nat :=
  (minute + 15) % 60

/-- `slot_time = f"{start_time}-{end_time}"` (lines 94–99). -/
def slot_time_string (hour minute : Nat) : String :=
  pad2 hour ++ ":" ++ pad2 minute ++ "-" ++ pad2 (end_hour hour minute) ++ ":" ++ pad2 (end_minute minute)

/-- The 96 `slot_time` keys produced by the loops
`for hour in range(24): for minute in [0, 15, 30, 45]:` (lines 92–99). -/
def botSlotKeys : List String :=
  (List.range 24).flatMap (fun hour => [0, 15, 30, 45].map (fun minute => slot_time_string hour minute))

/-- `INSERT OR IGNORE INTO time_slots (slot_time, ...)`: `slot_time` carries
a `UNIQUE` constraint, so the insert is a no-op when the key is present. -/
def insertOrIgnore (tbl : List String) (key : String) : List String :=
  if key ∈ tbl then tbl else tbl ++ [key]

/-- `generate_slots_for_date(date)` of `bot.py` (lines 83–109), acting on the
table of `slot_time` keys (the `date` and `max_people` columns are the same
constants for every inserted row and play no part in the key). -/
def generate_slots_for_date (tbl : List String) : List String :=
  botSlotKeys.foldl insertOrIgnore tbl

/-- The start times (minutes since midnight) of the 96 generated slots, in
table order — `hour * 60 + minute` for the same loops as `botSlotKeys`. -/
def botSlotStarts : List Nat :=
  (List.range 24).flatMap (fun hour => [0, 15, 30, 45].map (fun minute => hour * 60 + minute))

/-- The slot rows returned by `get_next_2_hours_slots` of `bot.py`
(lines 175–209), projected to start times.  The query keeps today's slots
with `SUBSTR(ts.slot_time, 1, 5) >= current_time_str` (start at or after
`now`; zero-padded string order = numeric order), sorts them by `slot_time`
(ascending starts) and applies `LIMIT 8`.  There is no upper time bound in
the query; the `end_time = now + 2h` value is computed only for display. -/
def get_next_2_hours_slots (now : Nat) : List Nat :=
  (botSlotStarts.filter (fun t => decide (now ≤ t))).take 8

/-- One row of the `users` table of `bot.py`: `user_id`, `telegram_id`,
`username`, `full_name`. -/
structure UserRow where
  id : Nat
  tg : Nat
  username : Option String
  full_name : Option String
deriving DecidableEq, Repr

/-- The `users` table plus the next fresh `user_id` (`INTEGER PRIMARY KEY`
assigns a fresh rowid to each insert, reported back as `lastrowid`). -/
structure RegState where
  rows : List UserRow
  nextId : Nat
deriving DecidableEq, Repr

/-- Python truthiness of an optional string: `None` and `""` are falsy. -/
def truthy : Option String → Bool
  | none => false
  | some s => !(s == "")

/-- `can_register_new_user()` of `bot.py` (lines 116–123):
`SELECT COUNT(*) FROM users` compared with the limit 50. -/
def can_register_new_user (st : RegState) : Bool :=
  st.rows.length < 50

/-- The row transformation of
`UPDATE users SET full_name = ? WHERE user_id = ?`. -/
def updateName (uid : Nat) (fn : Option String) (r : UserRow) : UserRow :=
  if r.id == uid then { r with full_name := fn } else r

/-- `get_or_create_user(telegram_id, username, full_name=None)` of `bot.py`
(lines 125–164): look the user up by `telegram_id`; if found, refresh
`full_name` when a truthy and different one is supplied and return the
existing `user_id`; otherwise, when a truthy `full_name` is supplied,
re-count the users, refuse with `None` at 50 or more, else insert the new
row and return `lastrowid`; with no truthy `full_name` return `None`. -/
def get_or_create_user (st : RegState) (tg : Nat) (username full_name : Option String) :
    RegState × Option Nat :=
  match st.rows.find? (fun u => u.tg == tg) with
  | some u =>
    if truthy full_name && !(u.full_name == full_name) then
      ({ st with rows := st.rows.map (updateName u.id full_name) }, some u.id)
    else (st, some u.id)
  | none =>
    if truthy full_name then
      if st.rows.length ≥ 50 then (st, none)
      else ({ rows := st.rows ++ [⟨st.nextId, tg, username, full_name⟩], nextId := st.nextId + 1 },
        some st.nextId)
    else (st, none)

end Bot

namespace Srv

/-- One row of the `bookings` table of `bot_server.py`: `booking_id`,
`user_id`, `slot_id` (this revision has no status column — a row's
existence is its status). -/
structure BkRow where
  id : Nat
  user : Nat
  slot : Nat
deriving DecidableEq, Repr

/-- The database of `bot_server.py`: `users` rows as
`(user_id, telegram_id)` pairs, `slots` rows as `(slot_id, max_people)`
pairs, the `bookings` rows, and the next fresh `booking_id`
(`AUTOINCREMENT`). -/
structure SrvState where
  users : List (Nat × Nat)
  slots : List (Nat × Nat)
  bookings : List BkRow
  nextBookingId : Nat
deriving DecidableEq, Repr

/-- `SELECT COUNT(*) FROM bookings WHERE slot_id = ?` — every booking row
counts, there is no status filter in this revision. -/
def bookedCount (bs : List BkRow) (slot : Nat) : Nat :=
  bs.countP (fun b => b.slot == slot)

/-- `book_slot(user_id, slot_id)` of `bot_server.py` (lines 129–152): count
the slot's bookings, fetch `max_people` (a missing slot row raises, the
`except` branch returns `False` with nothing committed), return `False`
when `booked_count >= max_people`, else insert the booking and return
`True`.  There is no per-user duplicate check in this revision. -/
def book_slot (st : SrvState) (user slot : Nat) : SrvState × Bool :=
  match st.slots.find? (fun sl => sl.1 == slot) with
  | none => (st, false)
  | some sl =>
    if bookedCount st.bookings slot ≥ sl.2 then (st, false)
    else ({ st with
              bookings := st.bookings ++ [⟨st.nextBookingId, user, slot⟩],
              nextBookingId := st.nextBookingId + 1 },
          true)

/-- Tagged outcome of `cancel_booking` in `bot_server.py`: `notFound` stands
for `"Запись не найдена"`, `notOwner` for
`"Вы можете отменять только свои записи"`, `ok` for the success message. -/
inductive CancelResult where
  | ok
  | notFound
  | notOwner
deriving DecidableEq, Repr

/-- `cancel_booking(booking_id, telegram_id)` of `bot_server.py`
(lines 170–202): join the booking to its user and slot (an empty join
result — booking, user or slot row missing — yields `notFound`); reject
with `notOwner` when the owner's `telegram_id` differs from the caller's;
otherwise `DELETE FROM bookings WHERE booking_id = ?` and report success. -/
def cancel_booking (st : SrvState) (bookingId tg : Nat) : SrvState × CancelResult :=
  match st.bookings.find? (fun b => b.id == bookingId) with
  | none => (st, .notFound)
  | some b =>
    match st.users.find? (fun u => u.1 == b.user) with
    | none => (st, .notFound)
    | some u =>
      match st.slots.find? (fun sl => sl.1 == b.slot) with
      | none => (st, .notFound)
      | some _ =>
        if u.2 ≠ tg then (st, .notOwner)
        else ({ st with bookings := st.bookings.filter (fun b2 => !(b2.id == bookingId)) }, .ok)

/-- States of `bot_server.py` reachable from an empty `bookings` table (any
fixed `users` and `slots` catalog) by any sequence of `book_slot` and
`cancel_booking` calls. -/
inductive Reachable : SrvState → Prop where
  | init (users slots : List (Nat × Nat)) (n : Nat) : Reachable ⟨users, slots, [], n⟩
  | book {st : SrvState} (u s : Nat) : Reachable st → Reachable (book_slot st u s).1
  | cancel {st : SrvState} (bid tg : Nat) : Reachable st → Reachable (cancel_booking st bid tg).1

/-- The start times (minutes since midnight) of the 48 slots generated by
`init_db` of `bot_server.py` (lines 65–82): `for hour in range(8, 20): for
minute in [0, 15, 30, 45]`. -/
def srvSlotStarts : List Nat :=
  (List.range' 8 12).flatMap (fun hour => [0, 15, 30, 45].map (fun minute => hour * 60 + minute))

/-- The slot rows returned by `get_available_slots` of `bot_server.py`
(lines 106–127), projected to start times.  The query keeps slots with
`s.time_range >= "HH:MM-"` (lexicographically, i.e. start at or after
`now`), orders by `time_range` (ascending starts) and applies `LIMIT 8`.
No upper time bound appears in the query. -/
def get_available_slots (now : Nat) : List Nat :=
  (srvSlotStarts.filter (fun t => decide (now ≤ t))).take 8

/-- The status emoji of `handle_book` in `bot_server.py` (lines 330–335):
`🟢` when `booked_count == 0`, `🟡` when `booked_count < max_people`,
`🔴` otherwise. -/
def handle_book_icon (booked_count max_people : Nat) : Bot.Light :=
  if booked_count == 0 then .green
  else if booked_count < max_people then .yellow
  else .red

/-- The `"Свободных слотов"` figure of `handle_statistics` in
`bot_server.py` (line 719): `total_slots - total_bookings`, evaluated over
Python integers, where `total_slots = SELECT COUNT(*) FROM slots` and
`total_bookings = SELECT COUNT(*) FROM bookings`. -/
def handle_statistics_free (st : SrvState) : Int :=
  (st.slots.length : Int) - (st.bookings.length : Int)

end Srv

/-- The traffic-light classification, modelled from the spec's words:
`occupied == 0 → free`, `0 < occupied < capacity → nearly-full`,
`occupied >= capacity → full`. -/
inductive SpecStatus where
  | free
  | nearlyFull
  | full
deriving DecidableEq, Repr

/-- Modelled from the spec: the three-way classification derived purely
from `occupied_count` vs `capacity`. -/
def specClassification (occupied capacity : Nat) : SpecStatus :=
  if occupied = 0 then .free
  else if occupied < capacity then .nearlyFull
  else .full

/-- The emoji each spec status is rendered with. -/
def statusLight : SpecStatus → Bot.Light
  | .free => .green
  | .nearlyFull => .yellow
  | .full => .red

/-! Concrete states used by witnesses and counterexamples. -/

/-- A catalog with one slot (id 1) of capacity 3. -/
def capsOneSlot : List (Nat × Nat) := [(1, 3)]

/-- The `bot.py` ledger after users 1, 2 and 3 each booked slot 1. -/
def threeOnSlotOne : List Bot.Booking := [⟨1, 1, true⟩, ⟨2, 1, true⟩, ⟨3, 1, true⟩]

/-- The `bot.py` ledger after user 7 booked slot 1. -/
def oneOnSlotOne : List Bot.Booking := [⟨7, 1, true⟩]

/-- A `bot_server.py` state: user 1 (telegram 10), user 2 (telegram 20),
one slot of capacity 3, booking 1 held by user 1 on slot 1. -/
def srvStateOwned : Srv.SrvState := ⟨[(1, 10), (2, 20)], [(1, 3)], [⟨1, 1, 1⟩], 2⟩

/-- The `bot_server.py` state reached from an empty ledger with one slot of
capacity 3 after one `book_slot` call by user 7. -/
def srvStateOneBooking : Srv.SrvState :=
  (Srv.book_slot ⟨[(1, 10)], [(1, 3)], [], 1⟩ 7 1).1

/-- The `bot_server.py` state reached from an empty ledger with a single
slot of capacity 3 after user 1 books it twice (this revision has no
duplicate check): 2 booking rows against 1 slot row. -/
def srvStateOverbooked : Srv.SrvState :=
  (Srv.book_slot (Srv.book_slot ⟨[(1, 10)], [(1, 3)], [], 1⟩ 1 1).1 1 1).1

/-- A `users` table of `bot.py` holding exactly 50 registered users. -/
def fiftyUsers : Bot.RegState :=
  ⟨(List.range 50).map (fun i => ⟨i + 1, i + 1, none, some ("U")⟩), 51⟩

/-! Helper lemmas about `INSERT OR IGNORE` style insertion. -/

theorem mem_insertOrIgnore_of_mem {tbl : List String} {a : String} (k : String)
    (h : a ∈ tbl) : a ∈ Bot.insertOrIgnore tbl k := by
  unfold Bot.insertOrIgnore
  split
  · exact h
  · exact List.mem_append_left _ h

theorem self_mem_insertOrIgnore (tbl : List String) (k : String) :
    k ∈ Bot.insertOrIgnore tbl k := by
  unfold Bot.insertOrIgnore
  split
  · assumption
  · exact List.mem_append_right _ (List.mem_singleton.mpr rfl)

theorem mem_foldl_insertOrIgnore_of_mem {a : String} (ks : List String) :
    ∀ tbl : List String, a ∈ tbl → a ∈ ks.foldl Bot.insertOrIgnore tbl := by
  induction ks with
  | nil => intro tbl h; exact h
  | cons k ks ih => intro tbl h; exact ih _ (mem_insertOrIgnore_of_mem k h)

theorem mem_foldl_insertOrIgnore_self {a : String} (ks : List String) :
    ∀ tbl : List String, a ∈ ks → a ∈ ks.foldl Bot.insertOrIgnore tbl := by
  induction ks with
  | nil => intro tbl h; cases h
  | cons k ks ih =>
    intro tbl h
    rcases List.mem_cons.mp h with rfl | h
    · exact mem_foldl_insertOrIgnore_of_mem ks _ (self_mem_insertOrIgnore tbl a)
    · exact ih _ h

theorem foldl_insertOrIgnore_of_subset (ks : List String) :
    ∀ tbl : List String, (∀ k ∈ ks, k ∈ tbl) → ks.foldl Bot.insertOrIgnore tbl = tbl := by
  induction ks with
  | nil => intro tbl _; rfl
  | cons k ks ih =>
    intro tbl h
    have hk : Bot.insertOrIgnore tbl k = tbl := by
      unfold Bot.insertOrIgnore
      rw [if_pos (h k (List.mem_cons_self k ks))]
    simp only [List.foldl_cons, hk]
    exact ih _ (fun a ha => h a (List.mem_cons_of_mem _ ha))

/-- Claim C7: catalog generation is idempotent — running
`generate_slots_for_date` a second time for the same day inserts no new row
and creates no duplicate, so the table after two runs equals the table
after one (`INSERT OR IGNORE` against the unique slot key is a no-op once
the key exists). -/
theorem c7_generate_idempotent (tbl : List String) :
    Bot.generate_slots_for_date (Bot.generate_slots_for_date tbl)
      = Bot.generate_slots_for_date tbl := by
  unfold Bot.generate_slots_for_date
  exact foldl_insertOrIgnore_of_subset _ _
    (fun k hk => mem_foldl_insertOrIgnore_self _ _ hk)

/-- Claim C8: for every generated slot (hour 0–23, minute 0/15/30/45) the
computed end time equals the start time plus 15 minutes wrapping modulo 24
hours, and the slot starting at 23:45 renders as `"23:45-00:00"` — not as
`"23:45-24:00"`. -/
theorem c8_day_rollover :
    ((List.range 24).all (fun h => [0, 15, 30, 45].all (fun m =>
        Bot.end_hour h m * 60 + Bot.end_minute m == (h * 60 + m + 15) % 1440)) = true)
    ∧ Bot.slot_time_string 23 45 = "23:45-00:00"
    ∧ Bot.slot_time_string 23 45 ≠ "23:45-24:00" := by
  refine ⟨by decide, by decide, by decide⟩

/-- Claim C2 counterexample: in `bot.py`'s booking keyboard
(`get_slots_keyboard`), a slot with capacity 3 and occupied count 1 is
rendered with the green "free" icon, while the claimed classification calls
it nearly-full (yellow). -/
theorem c2_counterexample :
    Bot.get_slots_keyboard_icon 3 1 = Bot.Light.green
    ∧ statusLight (specClassification 1 3) = Bot.Light.yellow
    ∧ Bot.Light.green ≠ Bot.Light.yellow := by
  refine ⟨by decide, by decide, by decide⟩

/-- Claim C2 amended: `bot_server.py`'s slot views classify exactly as the
spec states (`occupied == 0 → free`, `0 < occupied < capacity →
nearly-full`, `occupied >= capacity → full`), but `bot.py`'s booking
keyboard is full when `occupied >= capacity`, nearly-full only when exactly
one seat remains, and free otherwise — so for capacity 3, occupied 1 is
shown free there, and only occupied 2 is nearly-full. -/
theorem c2_amended :
    (∀ booked mp : Nat, Srv.handle_book_icon booked mp = statusLight (specClassification booked mp))
    ∧ (∀ mp booked : Nat, mp ≤ booked → Bot.get_slots_keyboard_icon mp booked = Bot.Light.red)
    ∧ (∀ mp booked : Nat, booked + 1 = mp → Bot.get_slots_keyboard_icon mp booked = Bot.Light.yellow)
    ∧ (∀ mp booked : Nat, booked + 2 ≤ mp → Bot.get_slots_keyboard_icon mp booked = Bot.Light.green) := by
  refine ⟨?_, ?_, ?_, ?_⟩
  · intro booked mp
    unfold Srv.handle_book_icon specClassification statusLight
    rcases Nat.eq_zero_or_pos booked with rfl | hpos
    · simp
    · rw [if_neg (by simpa using Nat.pos_iff_ne_zero.mp hpos), if_neg (Nat.pos_iff_ne_zero.mp hpos)]
      by_cases hlt : booked < mp
      · rw [if_pos hlt, if_pos hlt]
      · rw [if_neg hlt, if_neg hlt]
  · intro mp booked h
    unfold Bot.get_slots_keyboard_icon
    simp only []
    rw [if_pos h]
  · intro mp booked h
    unfold Bot.get_slots_keyboard_icon
    simp only []
    rw [if_neg (by omega), if_pos (by simp; omega)]
  · intro mp booked h
    unfold Bot.get_slots_keyboard_icon
    simp only []
    rw [if_neg (by omega), if_neg (by simp; omega)]

/-- Witness for the amended C2 at concrete inputs. -/
theorem c2_amended_witness :
    Srv.handle_book_icon 2 3 = statusLight (specClassification 2 3)
    ∧ (3 ≤ 5 ∧ Bot.get_slots_keyboard_icon 3 5 = Bot.Light.red)
    ∧ (2 + 1 = 3 ∧ Bot.get_slots_keyboard_icon 3 2 = Bot.Light.yellow)
    ∧ (1 + 2 ≤ 3 ∧ Bot.get_slots_keyboard_icon 3 1 = Bot.Light.green) :=
  ⟨c2_amended.1 2 3,
   ⟨by decide, c2_amended.2.1 3 5 (by decide)⟩,
   ⟨by decide, c2_amended.2.2.1 3 2 (by decide)⟩,
   ⟨by decide, c2_amended.2.2.2 3 1 (by decide)⟩⟩

/-- Claim C10: `handle_statistics` reports the free-slot figure as the
total number of slot rows minus the total number of booking rows, so in
every state whose booking rows outnumber its slot rows the reported figure
is negative. -/
theorem c10_free_count_negative (st : Srv.SrvState)
    (h : st.slots.length < st.bookings.length) :
    Srv.handle_statistics_free st < 0 := by
  unfold Srv.handle_statistics_free
  omega

/-- Witness for C10: a state reached by two `book_slot` calls against a
single slot of capacity 3 has 2 booking rows and 1 slot row, and the
statistics view reports -1 free slots. -/
theorem c10_witness :
    srvStateOverbooked.slots.length < srvStateOverbooked.bookings.length
    ∧ Srv.handle_statistics_free srvStateOverbooked < 0 :=
  ⟨by decide, c10_free_count_negative srvStateOverbooked (by decide)⟩

/-! Characterization lemmas that discharge the `match`es of the embedded
functions against a known lookup result. -/

theorem book_slot_of_find?_some {caps : List (Nat × Nat)} {s : Nat} {c : Nat × Nat}
    (bs : List Bot.Booking) (u : Nat) (hc : caps.find? (fun x => x.1 == s) = some c) :
    Bot.book_slot caps bs u s
      = if Bot.activeCount bs s ≥ c.2 then some (bs, Bot.BookResult.slotFull)
        else if Bot.hasActive bs u s then some (bs, Bot.BookResult.alreadyBooked)
        else some (bs ++ [⟨u, s, true⟩], Bot.BookResult.booked) := by
  unfold Bot.book_slot
  rw [hc]

theorem cancel_booking_of_hasActive {caps : List (Nat × Nat)} {bs : List Bot.Booking}
    {u s : Nat} {c : Nat × Nat}
    (hA : Bot.hasActive bs u s = true) (hc : caps.find? (fun x => x.1 == s) = some c) :
    Bot.cancel_booking caps bs u s = some (bs.map (Bot.cancelRow u s), true) := by
  unfold Bot.cancel_booking
  rw [if_pos hA, hc]

theorem cancel_booking_state {caps : List (Nat × Nat)} {bs bs' : List Bot.Booking}
    {u s : Nat} {ok : Bool}
    (h : Bot.cancel_booking caps bs u s = some (bs', ok)) :
    bs' = bs ∨ bs' = bs.map (Bot.cancelRow u s) := by
  unfold Bot.cancel_booking at h
  split at h
  · split at h
    · simp_all
    · simp only [Option.some.injEq, Prod.mk.injEq] at h
      exact Or.inr h.1.symm
  · simp only [Option.some.injEq, Prod.mk.injEq] at h
    exact Or.inl h.1.symm

theorem srv_book_slot_of_find?_some {st : Srv.SrvState} {s : Nat} {sl : Nat × Nat}
    (u : Nat) (hs : st.slots.find? (fun x => x.1 == s) = some sl) :
    Srv.book_slot st u s
      = if Srv.bookedCount st.bookings s ≥ sl.2 then (st, false)
        else ({ st with
                  bookings := st.bookings ++ [⟨st.nextBookingId, u, s⟩],
                  nextBookingId := st.nextBookingId + 1 }, true) := by
  unfold Srv.book_slot
  rw [hs]

theorem srv_book_slot_state (st : Srv.SrvState) (u s : Nat) :
    (Srv.book_slot st u s).1 = st
    ∨ ((Srv.book_slot st u s).1.bookings = st.bookings ++ [⟨st.nextBookingId, u, s⟩]
        ∧ (Srv.book_slot st u s).1.slots = st.slots
        ∧ ¬ Srv.bookedCount st.bookings s ≥
            ((st.slots.find? (fun x => x.1 == s)).getD (0, 0)).2) := by
  unfold Srv.book_slot
  split
  · exact Or.inl rfl
  · next sl hsl =>
    split
    · exact Or.inl rfl
    · next hlt => exact Or.inr ⟨rfl, rfl, by rw [hsl]; exact hlt⟩

theorem srv_cancel_booking_state (st : Srv.SrvState) (bid tg : Nat) :
    (Srv.cancel_booking st bid tg).1 = st
    ∨ (Srv.cancel_booking st bid tg).1
        = { st with bookings := st.bookings.filter (fun b2 => !(b2.id == bid)) } := by
  unfold Srv.cancel_booking
  split
  · exact Or.inl rfl
  · split
    · exact Or.inl rfl
    · split
      · exact Or.inl rfl
      · split
        · exact Or.inl rfl
        · exact Or.inr rfl

theorem get_or_create_user_of_find?_none {st : Bot.RegState} {tg : Nat}
    (un fn : Option String) (hfind : st.rows.find? (fun u => u.tg == tg) = none) :
    Bot.get_or_create_user st tg un fn
      = if Bot.truthy fn then
          (if st.rows.length ≥ 50 then (st, none)
           else ({ rows := st.rows ++ [⟨st.nextId, tg, un, fn⟩], nextId := st.nextId + 1 },
                 some st.nextId))
        else (st, none) := by
  unfold Bot.get_or_create_user
  rw [hfind]

theorem get_or_create_user_of_find?_some {st : Bot.RegState} {tg : Nat} {u : Bot.UserRow}
    (un fn : Option String) (hfind : st.rows.find? (fun x => x.tg == tg) = some u) :
    Bot.get_or_create_user st tg un fn
      = if Bot.truthy fn && !(u.full_name == fn) then
          ({ st with rows := st.rows.map (Bot.updateName u.id fn) }, some u.id)
        else (st, some u.id) := by
  unfold Bot.get_or_create_user
  rw [hfind]

/-- Claim C4: when booking `b` (joined to its owner and slot rows) is owned
by a user whose `telegram_id` differs from the caller's, `cancel_booking`
of `bot_server.py` rejects with `notOwner`, changes nothing, and the
booking row is still present afterwards. -/
theorem c4_ownership (st : Srv.SrvState) (bid tgB : Nat) (b : Srv.BkRow) (uA sl : Nat × Nat)
    (hb : st.bookings.find? (fun x => x.id == bid) = some b)
    (hu : st.users.find? (fun x => x.1 == b.user) = some uA)
    (hs : st.slots.find? (fun x => x.1 == b.slot) = some sl)
    (hne : uA.2 ≠ tgB) :
    Srv.cancel_booking st bid tgB = (st, Srv.CancelResult.notOwner)
    ∧ b ∈ (Srv.cancel_booking st bid tgB).1.bookings := by
  have h1 : Srv.cancel_booking st bid tgB = (st, Srv.CancelResult.notOwner) := by
    unfold Srv.cancel_booking
    rw [hb]
    show (match st.users.find? (fun x => x.1 == b.user) with
      | none => (st, Srv.CancelResult.notFound)
      | some u =>
        match st.slots.find? (fun x => x.1 == b.slot) with
        | none => (st, Srv.CancelResult.notFound)
        | some _ =>
          if u.2 ≠ tgB then (st, Srv.CancelResult.notOwner)
          else ({ st with bookings := st.bookings.filter (fun b2 => !(b2.id == bid)) },
                Srv.CancelResult.ok)) = (st, Srv.CancelResult.notOwner)
    rw [hu]
    show (match st.slots.find? (fun x => x.1 == b.slot) with
      | none => (st, Srv.CancelResult.notFound)
      | some _ =>
        if uA.2 ≠ tgB then (st, Srv.CancelResult.notOwner)
        else ({ st with bookings := st.bookings.filter (fun b2 => !(b2.id == bid)) },
              Srv.CancelResult.ok)) = (st, Srv.CancelResult.notOwner)
    rw [hs]
    show (if uA.2 ≠ tgB then (st, Srv.CancelResult.notOwner)
      else ({ st with bookings := st.bookings.filter (fun b2 => !(b2.id == bid)) },
            Srv.CancelResult.ok)) = (st, Srv.CancelResult.notOwner)
    rw [if_pos hne]
  exact ⟨h1, by rw [h1]; exact List.mem_of_find?_eq_some hb⟩

/-- Witness for C4: user with telegram id 20 tries to cancel booking 1,
which belongs to the user with telegram id 10. -/
theorem c4_ownership_witness :
    srvStateOwned.bookings.find? (fun x => x.id == 1) = some ⟨1, 1, 1⟩
    ∧ Srv.cancel_booking srvStateOwned 1 20 = (srvStateOwned, Srv.CancelResult.notOwner)
    ∧ (⟨1, 1, 1⟩ : Srv.BkRow) ∈ (Srv.cancel_booking srvStateOwned 1 20).1.bookings :=
  ⟨by decide,
   (c4_ownership srvStateOwned 1 20 ⟨1, 1, 1⟩ (1, 10) (1, 3)
      (by decide) (by decide) (by decide) (by decide)).1,
   (c4_ownership srvStateOwned 1 20 ⟨1, 1, 1⟩ (1, 10) (1, 3)
      (by decide) (by decide) (by decide) (by decide)).2⟩

/-- Claim C9: `bot.py` only registers a new user while fewer than 50 users
exist: with 50 or more rows, `get_or_create_user` for an unknown
`telegram_id` returns `None` and inserts nothing; a table of at most 50
rows never exceeds 50 rows through this path; an existing user is returned
(and the row count unchanged) regardless of the cap; and the table can only
grow in a call when `can_register_new_user` held beforehand. -/
theorem c9_registration_cap :
    (∀ (st : Bot.RegState) (tg : Nat) (un fn : Option String),
        st.rows.find? (fun u => u.tg == tg) = none → 50 ≤ st.rows.length →
        Bot.get_or_create_user st tg un fn = (st, none))
    ∧ (∀ (st : Bot.RegState) (tg : Nat) (un fn : Option String),
        st.rows.length ≤ 50 → (Bot.get_or_create_user st tg un fn).1.rows.length ≤ 50)
    ∧ (∀ (st : Bot.RegState) (tg : Nat) (un fn : Option String) (u : Bot.UserRow),
        st.rows.find? (fun x => x.tg == tg) = some u →
        (Bot.get_or_create_user st tg un fn).2 = some u.id
        ∧ (Bot.get_or_create_user st tg un fn).1.rows.length = st.rows.length)
    ∧ (∀ (st : Bot.RegState) (tg : Nat) (un fn : Option String),
        st.rows.length < (Bot.get_or_create_user st tg un fn).1.rows.length →
        Bot.can_register_new_user st = true) := by
  refine ⟨?_, ?_, ?_, ?_⟩
  · intro st tg un fn hfind hlen
    rw [get_or_create_user_of_find?_none un fn hfind]
    by_cases ht : Bot.truthy fn = true
    · rw [if_pos ht, if_pos (show st.rows.length ≥ 50 from hlen)]
    · rw [if_neg ht]
  · intro st tg un fn hlen
    cases hfind : st.rows.find? (fun u => u.tg == tg) with
    | some u =>
      rw [get_or_create_user_of_find?_some un fn hfind]
      split
      · simpa using hlen
      · exact hlen
    | none =>
      rw [get_or_create_user_of_find?_none un fn hfind]
      split
      · split
        · exact hlen
        · simp only [List.length_append, List.length_cons, List.length_nil]
          omega
      · exact hlen
  · intro st tg un fn u hfind
    rw [get_or_create_user_of_find?_some un fn hfind]
    split
    · exact ⟨rfl, by simp⟩
    · exact ⟨rfl, rfl⟩
  · intro st tg un fn hgrow
    unfold Bot.can_register_new_user
    cases hfind : st.rows.find? (fun u => u.tg == tg) with
    | some u =>
      rw [get_or_create_user_of_find?_some un fn hfind] at hgrow
      split at hgrow
      · simp at hgrow
      · simp at hgrow
    | none =>
      rw [get_or_create_user_of_find?_none un fn hfind] at hgrow
      split at hgrow
      · split at hgrow
        · simp at hgrow
        · simp only [decide_eq_true_eq]
          omega
      · simp at hgrow

/-- Witness for C9 at concrete states: a 50-user table refuses a new
registration unchanged; stays within the cap; an existing user is returned
with the table size unchanged; and a successful registration from a 0-user
table implies the cap check held. -/
theorem c9_registration_cap_witness :
    Bot.get_or_create_user fiftyUsers 999 none (some ("New")) = (fiftyUsers, none)
    ∧ (Bot.get_or_create_user fiftyUsers 999 none (some ("New"))).1.rows.length ≤ 50
    ∧ ((Bot.get_or_create_user fiftyUsers 7 none none).2 = some 7
        ∧ (Bot.get_or_create_user fiftyUsers 7 none none).1.rows.length = fiftyUsers.rows.length)
    ∧ Bot.can_register_new_user ⟨[], 1⟩ = true :=
  ⟨c9_registration_cap.1 fiftyUsers 999 none (some ("New")) (by decide) (by decide),
   c9_registration_cap.2.1 fiftyUsers 999 none (some ("New")) (by decide),
   (c9_registration_cap.2.2.1 fiftyUsers 7 none none ⟨7, 7, none, some ("U")⟩ (by decide)),
   c9_registration_cap.2.2.2 ⟨[], 1⟩ 5 none (some ("N")) (by decide)⟩

/-! Counting lemmas for the two ledgers. -/

theorem book_slot_of_find?_none {caps : List (Nat × Nat)} {s : Nat}
    (bs : List Bot.Booking) (u : Nat) (hc : caps.find? (fun x => x.1 == s) = none) :
    Bot.book_slot caps bs u s = none := by
  unfold Bot.book_slot
  rw [hc]

theorem activeCount_append_book (bs : List Bot.Booking) (u s s' : Nat) :
    Bot.activeCount (bs ++ [⟨u, s, true⟩]) s'
      = Bot.activeCount bs s' + (if s == s' then 1 else 0) := by
  unfold Bot.activeCount
  rw [List.countP_append]
  simp [List.countP_cons]

theorem bookedCount_append_book (bs : List Srv.BkRow) (i u s s' : Nat) :
    Srv.bookedCount (bs ++ [⟨i, u, s⟩]) s'
      = Srv.bookedCount bs s' + (if s == s' then 1 else 0) := by
  unfold Srv.bookedCount
  rw [List.countP_append]
  simp [List.countP_cons]

theorem cancelRow_of_true {u s : Nat} {b : Bot.Booking}
    (hb : (b.user == u && b.slot == s && b.active) = true) :
    Bot.cancelRow u s b = ⟨b.user, b.slot, false⟩ := by
  unfold Bot.cancelRow
  rw [if_pos hb]

theorem cancelRow_of_false {u s : Nat} {b : Bot.Booking}
    (hb : ¬ (b.user == u && b.slot == s && b.active) = true) :
    Bot.cancelRow u s b = b := by
  unfold Bot.cancelRow
  rw [if_neg hb]

theorem activeCount_map_cancelRow (bs : List Bot.Booking) (u s : Nat) :
    Bot.activeCount (bs.map (Bot.cancelRow u s)) s
      + bs.countP (fun b => b.user == u && b.slot == s && b.active)
      = Bot.activeCount bs s := by
  induction bs with
  | nil => rfl
  | cons b bs ih =>
    unfold Bot.activeCount at ih ⊢
    rw [List.map_cons, List.countP_cons, List.countP_cons, List.countP_cons]
    by_cases hb : (b.user == u && b.slot == s && b.active) = true
    · have hsa : (b.slot == s && b.active) = true := by
        rw [Bool.and_assoc, Bool.and_eq_true] at hb
        exact hb.2
      rw [cancelRow_of_true hb, if_pos hb, if_pos hsa]
      simp only [Bool.and_false]
      rw [if_neg Bool.false_ne_true]
      omega
    · rw [cancelRow_of_false hb, if_neg hb]
      omega

theorem activeCount_map_cancelRow_le (bs : List Bot.Booking) (u s s' : Nat) :
    Bot.activeCount (bs.map (Bot.cancelRow u s)) s' ≤ Bot.activeCount bs s' := by
  induction bs with
  | nil => exact Nat.le_refl _
  | cons b bs ih =>
    unfold Bot.activeCount at ih ⊢
    rw [List.map_cons, List.countP_cons, List.countP_cons]
    by_cases hb : (b.user == u && b.slot == s && b.active) = true
    · rw [cancelRow_of_true hb]
      simp only [Bool.and_false]
      rw [if_neg Bool.false_ne_true]
      split <;> omega
    · rw [cancelRow_of_false hb]
      omega

theorem hasActive_map_cancelRow (bs : List Bot.Booking) (u s v s' : Nat)
    (h : Bot.hasActive bs v s' = false) :
    Bot.hasActive (bs.map (Bot.cancelRow u s)) v s' = false := by
  induction bs with
  | nil => rfl
  | cons b bs ih =>
    unfold Bot.hasActive at h ih ⊢
    rw [List.map_cons, List.any_cons]
    rw [List.any_cons] at h
    have h1 : (b.user == v && b.slot == s' && b.active) = false := by
      cases hp : (b.user == v && b.slot == s' && b.active) with
      | false => rfl
      | true => rw [hp] at h; simp at h
    have h2 : bs.any (fun x => x.user == v && x.slot == s' && x.active) = false := by
      cases hq : bs.any (fun x => x.user == v && x.slot == s' && x.active) with
      | false => rfl
      | true => rw [hq] at h; simp at h
    rw [ih h2, Bool.or_false]
    unfold Bot.cancelRow
    split
    · simp
    · exact h1

/-- Claim C1: the capacity invariant.  In both revisions, every state
reachable from an empty ledger by any sequence of reserve (`book_slot`) and
cancel (`cancel_booking`) operations keeps, for every slot of the catalog,
the number of (active) bookings referencing it at or below the slot's
`max_people`: reserve inserts only after checking the current count is
strictly below capacity, and cancellation can only lower the count. -/
theorem c1_capacity_invariant :
    (∀ (caps : List (Nat × Nat)) (bs : List Bot.Booking), Bot.Reachable caps bs →
      ∀ (s : Nat) (c : Nat × Nat), caps.find? (fun x => x.1 == s) = some c →
        Bot.activeCount bs s ≤ c.2)
    ∧ (∀ st : Srv.SrvState, Srv.Reachable st →
      ∀ (s : Nat) (c : Nat × Nat), st.slots.find? (fun x => x.1 == s) = some c →
        Srv.bookedCount st.bookings s ≤ c.2) := by
  constructor
  · intro caps bs h
    induction h with
    | init => intro s c _; exact Nat.zero_le _
    | @book bs bs' u s r hprev heq ih =>
      intro s' c' hc'
      cases hfind : caps.find? (fun x => x.1 == s) with
      | none => rw [book_slot_of_find?_none bs u hfind] at heq; cases heq
      | some c0 =>
        rw [book_slot_of_find?_some bs u hfind] at heq
        by_cases hfull : Bot.activeCount bs s ≥ c0.2
        · rw [if_pos hfull] at heq
          simp only [Option.some.injEq, Prod.mk.injEq] at heq
          rw [← heq.1]
          exact ih s' c' hc'
        · rw [if_neg hfull] at heq
          by_cases hA : Bot.hasActive bs u s = true
          · rw [if_pos hA] at heq
            simp only [Option.some.injEq, Prod.mk.injEq] at heq
            rw [← heq.1]
            exact ih s' c' hc'
          · rw [if_neg hA] at heq
            simp only [Option.some.injEq, Prod.mk.injEq] at heq
            rw [← heq.1, activeCount_append_book]
            by_cases hss : (s == s') = true
            · have hs2 : s = s' := by simpa using hss
              subst hs2
              rw [hfind] at hc'
              cases hc'
              rw [if_pos hss]
              omega
            · rw [if_neg hss]
              have := ih s' c' hc'
              omega
    | @cancel bs bs' u s ok hprev heq ih =>
      intro s' c' hc'
      rcases cancel_booking_state heq with rfl | rfl
      · exact ih s' c' hc'
      · exact Nat.le_trans (activeCount_map_cancelRow_le bs u s s') (ih s' c' hc')
  · intro st h
    induction h with
    | init => intro s c _; exact Nat.zero_le _
    | @book st u s hprev ih =>
      intro s' c' hc'
      rcases srv_book_slot_state st u s with hsame | ⟨hbk, hsl, hlt⟩
      · rw [hsame] at hc' ⊢
        exact ih s' c' hc'
      · rw [hsl] at hc'
        rw [hbk, bookedCount_append_book]
        by_cases hss : (s == s') = true
        · have hs2 : s = s' := by simpa using hss
          subst hs2
          rw [hc'] at hlt
          simp only [Option.getD_some] at hlt
          rw [if_pos hss]
          omega
        · rw [if_neg hss]
          have := ih s' c' hc'
          omega
    | @cancel st bid tg hprev ih =>
      intro s' c' hc'
      rcases srv_cancel_booking_state st bid tg with hsame | hdel
      · rw [hsame] at hc' ⊢
        exact ih s' c' hc'
      · rw [hdel] at hc' ⊢
        exact Nat.le_trans
          (List.Sublist.countP_le _ (List.filter_sublist st.bookings)) (ih s' c' hc')

/-- Witness for C1: concrete reachable states — one booking on a slot of
capacity 3 in each revision — satisfy the capacity bound. -/
theorem c1_capacity_invariant_witness :
    Bot.activeCount oneOnSlotOne 1 ≤ 3
    ∧ Srv.bookedCount srvStateOneBooking.bookings 1 ≤ 3 := by
  constructor
  · exact c1_capacity_invariant.1 capsOneSlot oneOnSlotOne
      (@Bot.Reachable.book capsOneSlot [] oneOnSlotOne 7 1
        Bot.BookResult.booked Bot.Reachable.init (by decide))
      1 (1, 3) (by decide)
  · exact c1_capacity_invariant.2 srvStateOneBooking
      (Srv.Reachable.book 7 1 (Srv.Reachable.init [(1, 10)] [(1, 3)] 1))
      1 (1, 3) (by decide)

/-- Claim C5: cancellation frees capacity.  In `bot.py`, when slot `s` is
at full capacity, user `u` holds an active booking there, and user `v`
holds none, a successful `cancel_booking(u, s)` followed by
`book_slot(v, s)` succeeds: the cancelled booking no longer counts against
the capacity. -/
theorem c5_cancel_frees_capacity (caps : List (Nat × Nat)) (bs : List Bot.Booking)
    (u v s : Nat) (c : Nat × Nat)
    (hc : caps.find? (fun x => x.1 == s) = some c)
    (hFull : Bot.activeCount bs s = c.2)
    (hU : Bot.hasActive bs u s = true)
    (hV : Bot.hasActive bs v s = false) :
    Bot.cancel_booking caps bs u s = some (bs.map (Bot.cancelRow u s), true)
    ∧ Bot.book_slot caps (bs.map (Bot.cancelRow u s)) v s
        = some (bs.map (Bot.cancelRow u s) ++ [⟨v, s, true⟩], Bot.BookResult.booked) := by
  refine ⟨cancel_booking_of_hasActive hU hc, ?_⟩
  have hU' : bs.any (fun b => b.user == u && b.slot == s && b.active) = true := hU
  have hpos : 0 < bs.countP (fun b => b.user == u && b.slot == s && b.active) := by
    rcases List.any_eq_true.mp hU' with ⟨b, hb, hp⟩
    exact List.countP_pos_iff.mpr ⟨b, hb, hp⟩
  have hlt : Bot.activeCount (bs.map (Bot.cancelRow u s)) s < c.2 := by
    have h2 := activeCount_map_cancelRow bs u s
    omega
  have hV1 : Bot.hasActive (bs.map (Bot.cancelRow u s)) v s = false :=
    hasActive_map_cancelRow bs u s v s hV
  rw [book_slot_of_find?_some _ v hc, if_neg (by omega), if_neg (by rw [hV1]; exact Bool.false_ne_true)]

/-- Witness for C5: slot 1 (capacity 3) is full with users 1, 2, 3; user 1
cancels; user 9 then books successfully. -/
theorem c5_cancel_frees_capacity_witness :
    Bot.activeCount threeOnSlotOne 1 = (1, 3).2
    ∧ Bot.cancel_booking capsOneSlot threeOnSlotOne 1 1
        = some (threeOnSlotOne.map (Bot.cancelRow 1 1), true)
    ∧ Bot.book_slot capsOneSlot (threeOnSlotOne.map (Bot.cancelRow 1 1)) 9 1
        = some (threeOnSlotOne.map (Bot.cancelRow 1 1) ++ [⟨9, 1, true⟩], Bot.BookResult.booked) := by
  have h := c5_cancel_frees_capacity capsOneSlot threeOnSlotOne 1 9 1 (1, 3)
    (by decide) (by decide) (by decide) (by decide)
  exact ⟨by decide, h.1, h.2⟩

/-! The 2-hour-window development for claim C6. -/

theorem botSlotStarts_eq : Bot.botSlotStarts = (List.range' 0 96).map (fun i => 15 * i) := by
  decide

theorem botSlotStarts_sorted : Bot.botSlotStarts.Sorted (· ≤ ·) := by decide

theorem srvSlotStarts_sorted : Srv.srvSlotStarts.Sorted (· ≤ ·) := by decide

theorem window_phase2 (now j n : Nat) (h1 : now ≤ 15 * j) (h2 : 15 * j ≤ now + 14) :
    (((List.range' j n).map (fun i => 15 * i)).filter (fun t => decide (now ≤ t))).take 8
      = ((List.range' j n).map (fun i => 15 * i)).filter
          (fun t => decide (now ≤ t) && decide (t < now + 120)) := by
  have hkeep : ((List.range' j n).map (fun i => 15 * i)).filter (fun t => decide (now ≤ t))
      = (List.range' j n).map (fun i => 15 * i) := by
    apply List.filter_eq_self.mpr
    intro t ht
    rcases List.mem_map.mp ht with ⟨i, hi, rfl⟩
    have hji := (List.mem_range'_1.mp hi).1
    exact decide_eq_true (by omega)
  have hcong : ((List.range' j n).map (fun i => 15 * i)).filter
        (fun t => decide (now ≤ t) && decide (t < now + 120))
      = ((List.range' j n).map (fun i => 15 * i)).filter (fun t => decide (t < 15 * j + 120)) := by
    apply List.filter_congr
    intro t ht
    rcases List.mem_map.mp ht with ⟨i, hi, rfl⟩
    have hji := (List.mem_range'_1.mp hi).1
    show (decide (now ≤ 15 * i) && decide (15 * i < now + 120)) = decide (15 * i < 15 * j + 120)
    rw [decide_eq_true (show now ≤ 15 * i by omega), Bool.true_and]
    rcases Nat.lt_or_ge i (j + 8) with hlt | hge
    · rw [decide_eq_true (show 15 * i < now + 120 by omega),
        decide_eq_true (show 15 * i < 15 * j + 120 by omega)]
    · rw [decide_eq_false (show ¬ 15 * i < now + 120 by omega),
        decide_eq_false (show ¬ 15 * i < 15 * j + 120 by omega)]
  rw [hkeep, hcong]
  rcases le_or_lt n 8 with hn8 | hn8
  · rw [List.take_of_length_le (by rw [List.length_map, List.length_range']; omega)]
    symm
    apply List.filter_eq_self.mpr
    intro t ht
    rcases List.mem_map.mp ht with ⟨i, hi, rfl⟩
    have hik := List.mem_range'_1.mp hi
    exact decide_eq_true (by omega)
  · have hsplit : List.range' j 8 ++ List.range' (j + 8) (n - 8) = List.range' j n := by
      rw [List.range'_append_1 j 8 (n - 8)]
      congr 1
      omega
    rw [← hsplit, List.map_append]
    rw [List.take_left' (by rw [List.length_map, List.length_range'])]
    rw [List.filter_append]
    have hA : ((List.range' j 8).map (fun i => 15 * i)).filter (fun t => decide (t < 15 * j + 120))
        = (List.range' j 8).map (fun i => 15 * i) := by
      apply List.filter_eq_self.mpr
      intro t ht
      rcases List.mem_map.mp ht with ⟨i, hi, rfl⟩
      have hik := List.mem_range'_1.mp hi
      exact decide_eq_true (by omega)
    have hB : ((List.range' (j + 8) (n - 8)).map (fun i => 15 * i)).filter
          (fun t => decide (t < 15 * j + 120)) = [] := by
      apply List.filter_eq_nil_iff.mpr
      intro t ht
      rcases List.mem_map.mp ht with ⟨i, hi, rfl⟩
      have hik := List.mem_range'_1.mp hi
      simp only [decide_eq_true_eq]
      omega
    rw [hA, hB, List.append_nil]

theorem take8_filter_eq_window (now : Nat) :
    ∀ (n j : Nat), 15 * j ≤ now + 14 →
      (((List.range' j n).map (fun i => 15 * i)).filter (fun t => decide (now ≤ t))).take 8
        = ((List.range' j n).map (fun i => 15 * i)).filter
            (fun t => decide (now ≤ t) && decide (t < now + 120)) := by
  intro n
  induction n with
  | zero => intro j _; rfl
  | succ m ih =>
    intro j hj
    by_cases hnow : now ≤ 15 * j
    · exact window_phase2 now j (m + 1) hnow hj
    · rw [List.range'_succ, List.map_cons, List.filter_cons, List.filter_cons]
      rw [decide_eq_false hnow, Bool.false_and]
      rw [if_neg Bool.false_ne_true, if_neg Bool.false_ne_true]
      exact ih (j + 1) (by omega)

theorem gn2h_eq_window (now : Nat) :
    Bot.get_next_2_hours_slots now
      = Bot.botSlotStarts.filter (fun t => decide (now ≤ t) && decide (t < now + 120)) := by
  unfold Bot.get_next_2_hours_slots
  rw [botSlotStarts_eq]
  exact take8_filter_eq_window now 96 0 (by omega)

/-- Claim C6 counterexample: at `now` = 300 minutes (05:00 Moscow time),
`get_available_slots` of `bot_server.py` returns the slot starting at 480
minutes (08:00), which does not start within `[now, now + 2h)` — the query
has no upper time bound, only `start >= now` with `LIMIT 8`. -/
theorem c6_counterexample :
    480 ∈ Srv.get_available_slots 300 ∧ ¬ (480 < 300 + 120) := by
  refine ⟨by decide, by decide⟩

/-- Claim C6 amended: both queries filter only by `start >= now`, order by
start ascending and truncate to 8 rows.  For `bot.py`'s full-day catalog of
96 fifteen-minute slots this nevertheless returns exactly the slots of the
day starting within `[now, now + 2h)`, in ascending order (eight 15-minute
grid points always cover the two-hour window).  For `bot_server.py`'s
08:00–20:00 catalog only the weaker guarantees hold: every returned slot
starts at or after `now`, the result is ascending, and it has at most 8
entries — a slot at or after `now + 2h` can appear (see the
counterexample). -/
theorem c6_available_window :
    (∀ now : Nat, Bot.get_next_2_hours_slots now
        = Bot.botSlotStarts.filter (fun t => decide (now ≤ t) && decide (t < now + 120)))
    ∧ (∀ now : Nat, (Bot.get_next_2_hours_slots now).Sorted (· ≤ ·))
    ∧ (∀ (now t : Nat), t ∈ Srv.get_available_slots now → now ≤ t)
    ∧ (∀ now : Nat, (Srv.get_available_slots now).Sorted (· ≤ ·))
    ∧ (∀ now : Nat, (Srv.get_available_slots now).length ≤ 8) := by
  refine ⟨gn2h_eq_window, ?_, ?_, ?_, ?_⟩
  · intro now
    unfold Bot.get_next_2_hours_slots
    exact List.Pairwise.sublist (List.take_sublist _ _)
      (List.Pairwise.filter _ botSlotStarts_sorted)
  · intro now t ht
    unfold Srv.get_available_slots at ht
    have ht2 := List.mem_of_mem_take ht
    exact of_decide_eq_true (List.mem_filter.mp ht2).2
  · intro now
    unfold Srv.get_available_slots
    exact List.Pairwise.sublist (List.take_sublist _ _)
      (List.Pairwise.filter _ srvSlotStarts_sorted)
  · intro now
    unfold Srv.get_available_slots
    exact List.length_take_le _ _

/-- Witness for the amended C6: at 10:01 (601 minutes) the booking keyboard
query of `bot.py` lists exactly the slots of `[10:01, 12:01)`, and the 08:00
slot returned by `bot_server.py` at 05:00 indeed starts at or after 05:00. -/
theorem c6_available_window_witness :
    Bot.get_next_2_hours_slots 601
        = Bot.botSlotStarts.filter (fun t => decide (601 ≤ t) && decide (t < 601 + 120))
    ∧ (480 ∈ Srv.get_available_slots 300 ∧ 300 ≤ 480) :=
  ⟨c6_available_window.1 601, by decide, c6_available_window.2.2.1 300 480 (by decide)⟩

/-- Claim C3 counterexample: the state where users 1, 2 and 3 each hold an
active booking on slot 1 (capacity 3) is reachable, user 1 already holds an
active booking there, yet a second `book_slot(1, 1)` in `bot.py` is
rejected with `slotFull`, not `alreadyBooked` — the capacity check runs
before the duplicate check. -/
theorem c3_counterexample :
    Bot.Reachable capsOneSlot threeOnSlotOne
    ∧ Bot.hasActive threeOnSlotOne 1 1 = true
    ∧ Bot.book_slot capsOneSlot threeOnSlotOne 1 1
        = some (threeOnSlotOne, Bot.BookResult.slotFull)
    ∧ Bot.BookResult.slotFull ≠ Bot.BookResult.alreadyBooked := by
  refine ⟨?_, by decide, by decide, by decide⟩
  have h1 : Bot.Reachable capsOneSlot [⟨1, 1, true⟩] :=
    @Bot.Reachable.book capsOneSlot [] [⟨1, 1, true⟩] 1 1
      Bot.BookResult.booked Bot.Reachable.init (by decide)
  have h2 : Bot.Reachable capsOneSlot [⟨1, 1, true⟩, ⟨2, 1, true⟩] :=
    @Bot.Reachable.book capsOneSlot [⟨1, 1, true⟩] [⟨1, 1, true⟩, ⟨2, 1, true⟩] 2 1
      Bot.BookResult.booked h1 (by decide)
  exact @Bot.Reachable.book capsOneSlot [⟨1, 1, true⟩, ⟨2, 1, true⟩] threeOnSlotOne 3 1
    Bot.BookResult.booked h2 (by decide)

/-- Claim C3 amended: in `bot.py`, when user `u` already holds an active
booking on slot `s`, a second `book_slot(u, s)` always fails and leaves the
ledger (hence the active count of `s`) unchanged; the rejection reason is
`slotFull` when the slot is at capacity — the capacity check precedes the
duplicate check — and `alreadyBooked` otherwise.  (`bot_server.py` has no
duplicate check at all.) -/
theorem c3_already_booked (caps : List (Nat × Nat)) (bs : List Bot.Booking)
    (u s : Nat) (c : Nat × Nat)
    (hc : caps.find? (fun x => x.1 == s) = some c)
    (hA : Bot.hasActive bs u s = true) :
    Bot.book_slot caps bs u s
      = some (bs, if Bot.activeCount bs s ≥ c.2
                  then Bot.BookResult.slotFull else Bot.BookResult.alreadyBooked) := by
  rw [book_slot_of_find?_some bs u hc]
  by_cases hfull : Bot.activeCount bs s ≥ c.2
  · rw [if_pos hfull, if_pos hfull]
  · rw [if_neg hfull, if_neg hfull, if_pos hA]

/-- Witness for the amended C3: user 1 re-books the slot it already holds
while the slot is not full; the call fails with `alreadyBooked` and leaves
the ledger unchanged. -/
theorem c3_already_booked_witness :
    capsOneSlot.find? (fun x => x.1 == 1) = some (1, 3)
    ∧ Bot.hasActive oneOnSlotOne 7 1 = true
    ∧ Bot.book_slot capsOneSlot oneOnSlotOne 7 1
        = some (oneOnSlotOne, if Bot.activeCount oneOnSlotOne 1 ≥ (1, 3).2
                              then Bot.BookResult.slotFull else Bot.BookResult.alreadyBooked) :=
  ⟨by decide, by decide,
   c3_already_booked capsOneSlot oneOnSlotOne 7 1 (1, 3) (by decide) (by decide)⟩
